import Mathlib

/-!
Verification of the Thyme website-health agent against its specification.

The definitions below are a shallow embedding of the TypeScript sources:
pure functions become Lean functions; stateful code (Supabase tables, the
agent conversation loop) becomes explicit state passing; JS numbers become
`Int`/`ℚ`; nullable values become `Option`; JS falsiness (`!x`, `x || d`)
is modelled explicitly where the source relies on it.  Wall-clock time
(`Date.now()`) is passed in as an explicit parameter, and network
responses are supplied by oracle functions.
-/

-- ============================================================================
-- Data model (src/lib/website/types.ts), restricted to the fields the
-- embedded functions actually read.
-- ============================================================================

/-- `GA4Snapshot` (types.ts): analytics snapshot fields read by the scorer
and the signal emitter. -/
structure GA4Snapshot where
  active_users : Int := 0
  sessions : Int := 0
  users_previous_period : Option Int := none
  traffic_change_pct : Option ℚ
deriving DecidableEq

/-- `SearchConsoleSnapshot` (types.ts): search snapshot fields read by the
scorer. -/
structure SearchConsoleSnapshot where
  total_clicks : Int := 0
  total_impressions : Int := 0
  avg_position : Option ℚ
  position_change : Option ℚ := none
deriving DecidableEq

/-- `PageSpeedScore` (types.ts): speed snapshot fields read by the scorer. -/
structure PageSpeedScore where
  strategy : String := "mobile"
  performance_score : Option Int
  lcp_ms : Option ℚ := none
  cls : Option ℚ := none
deriving DecidableEq

/-- `WebPage` (types.ts): page-inventory fields read by the scorer and the
agent-loop orchestration.  `last_updated_at` is a millisecond epoch
timestamp (the source stores an ISO string and converts with `new Date`). -/
structure WebPage where
  id : String := ""
  url : String
  title : Option String := none
  meta_description : Option String := none
  page_type : Option String := none
  has_form : Bool := false
  last_updated_at : Option Int := none
  meta_issues : Option (List String) := none
  has_broken_links : Bool := false
  is_indexed : Bool := true
  health_score : Option Int := none
deriving DecidableEq

/-- `HealthScoreBreakdown` (types.ts). -/
structure HealthScoreBreakdown where
  traffic_trend : Int
  seo_ranking : Int
  page_speed : Int
  content_freshness : Int
  conversion_health : Int
  technical_health : Int
  total : Int
deriving DecidableEq

-- ============================================================================
-- Health scorer (health-scorer module, src/unnamed/part_008 lines 90-239)
-- ============================================================================

/-- `scoreTrafficTrend` (part_008 lines 123-132).  Missing snapshot or null
`traffic_change_pct` scores the neutral 10. -/
def scoreTrafficTrend : Option GA4Snapshot → Int
  | none => 10
  | some ga4Data =>
    match ga4Data.traffic_change_pct with
    | none => 10
    | some changePct =>
      if changePct ≥ 0 then 20
      else if changePct > -10 then 15
      else if changePct > -30 then 8
      else 0

/-- `scoreSeoRanking` (part_008 lines 138-147).  The source guard is
`!searchData || !searchData.avg_position`, so a present `avg_position` of 0
is also treated as missing (JS falsiness). -/
def scoreSeoRanking : Option SearchConsoleSnapshot → Int
  | none => 0
  | some searchData =>
    match searchData.avg_position with
    | none => 0
    | some pos =>
      if pos = 0 then 0
      else if pos ≤ 10 then 20
      else if pos ≤ 20 then 15
      else if pos ≤ 50 then 8
      else 0

/-- `scorePageSpeed` (part_008 lines 153-162).  The null check is strict
(`=== null`), so a score of 0 is bucketed, not defaulted. -/
def scorePageSpeed : Option PageSpeedScore → Int
  | none => 10
  | some speedData =>
    match speedData.performance_score with
    | none => 10
    | some score =>
      if score ≥ 90 then 20
      else if score ≥ 70 then 15
      else if score ≥ 50 then 8
      else 0

/-- Milliseconds per day, the divisor `1000 * 60 * 60 * 24` in the source. -/
def msPerDay : Int := 1000 * 60 * 60 * 24

/-- `scoreContentFreshness` (part_008 lines 168-178).  `Math.floor` of the
real quotient is floor division, `Int.fdiv`.  `now` stands for `Date.now()`. -/
def scoreContentFreshness (now : Int) (page : WebPage) : Int :=
  match page.last_updated_at with
  | none => 0
  | some lastUpdated =>
    let daysSinceUpdate := Int.fdiv (now - lastUpdated) msPerDay
    if daysSinceUpdate < 90 then 15
    else if daysSinceUpdate < 180 then 10
    else if daysSinceUpdate < 365 then 5
    else 0

/-- `scoreConversionHealth` (part_008 lines 184-195). -/
def scoreConversionHealth (page : WebPage) : Int :=
  if page.has_form then 5
  else if page.page_type = some "blog_post" then 10
  else if page.page_type = some "landing_page" then 0
  else 8

/-- Substring containment, modelling JS `String.prototype.includes`:
the pattern occurs as a contiguous run of characters somewhere in `s`. -/
def containsSubstr (s pat : String) : Bool :=
  (List.range (s.toList.length + 1)).any
    (fun i => pat.toList.isPrefixOf (s.toList.drop i))

/-- `scoreTechnicalHealth` (part_008 lines 201-218): start at 10 and deduct
per issue category, floored at 0. -/
def scoreTechnicalHealth (page : WebPage) : Int :=
  let metaIssues := page.meta_issues.getD []
  let score : Int := 10
  let score := if metaIssues.contains "missing_meta" then score - 2 else score
  let score := if metaIssues.contains "missing_title" then score - 2 else score
  let score := if metaIssues.any (fun i => containsSubstr i "title_too") then score - 1 else score
  let score := if metaIssues.any (fun i => containsSubstr i "duplicate") then score - 1 else score
  let score := if page.has_broken_links then score - 2 else score
  let score := if ¬ page.is_indexed then score - 2 else score
  max 0 score

/-- `computeHealthScore` (part_008 lines 95-117). -/
def computeHealthScore (now : Int) (page : WebPage)
    (ga4Data : Option GA4Snapshot) (searchData : Option SearchConsoleSnapshot)
    (speedData : Option PageSpeedScore) : HealthScoreBreakdown :=
  let trafficTrend := scoreTrafficTrend ga4Data
  let seoRanking := scoreSeoRanking searchData
  let pageSpeed := scorePageSpeed speedData
  let contentFreshness := scoreContentFreshness now page
  let conversionHealth := scoreConversionHealth page
  let technicalHealth := scoreTechnicalHealth page
  { traffic_trend := trafficTrend
    seo_ranking := seoRanking
    page_speed := pageSpeed
    content_freshness := contentFreshness
    conversion_health := conversionHealth
    technical_health := technicalHealth
    total := trafficTrend + seoRanking + pageSpeed + contentFreshness
      + conversionHealth + technicalHealth }

-- Range lemmas for the six sub-scores.

lemma scoreTrafficTrend_range (g : Option GA4Snapshot) :
    0 ≤ scoreTrafficTrend g ∧ scoreTrafficTrend g ≤ 20 := by
  cases g with
  | none => exact ⟨by decide, by decide⟩
  | some s =>
    cases h : s.traffic_change_pct with
    | none => simp [scoreTrafficTrend, h]
    | some q =>
      simp only [scoreTrafficTrend, h]
      split_ifs <;> exact ⟨by decide, by decide⟩

lemma scoreSeoRanking_range (s : Option SearchConsoleSnapshot) :
    0 ≤ scoreSeoRanking s ∧ scoreSeoRanking s ≤ 20 := by
  cases s with
  | none => exact ⟨by decide, by decide⟩
  | some s =>
    cases h : s.avg_position with
    | none => simp [scoreSeoRanking, h]
    | some q =>
      simp only [scoreSeoRanking, h]
      split_ifs <;> exact ⟨by decide, by decide⟩

lemma scorePageSpeed_range (s : Option PageSpeedScore) :
    0 ≤ scorePageSpeed s ∧ scorePageSpeed s ≤ 20 := by
  cases s with
  | none => exact ⟨by decide, by decide⟩
  | some s =>
    cases h : s.performance_score with
    | none => simp [scorePageSpeed, h]
    | some q =>
      simp only [scorePageSpeed, h]
      split_ifs <;> exact ⟨by decide, by decide⟩

lemma scoreContentFreshness_range (now : Int) (p : WebPage) :
    0 ≤ scoreContentFreshness now p ∧ scoreContentFreshness now p ≤ 15 := by
  cases h : p.last_updated_at with
  | none => simp [scoreContentFreshness, h]
  | some t =>
    simp only [scoreContentFreshness, h]
    split_ifs <;> exact ⟨by decide, by decide⟩

lemma scoreConversionHealth_range (p : WebPage) :
    0 ≤ scoreConversionHealth p ∧ scoreConversionHealth p ≤ 15 := by
  unfold scoreConversionHealth
  split_ifs <;> exact ⟨by decide, by decide⟩

lemma scoreTechnicalHealth_range (p : WebPage) :
    0 ≤ scoreTechnicalHealth p ∧ scoreTechnicalHealth p ≤ 10 := by
  unfold scoreTechnicalHealth
  split_ifs <;> constructor <;> simp <;> omega

/-- C1: for every page and every combination of possibly-missing analytics,
search, and speed snapshots, the breakdown's `total` is the sum of the six
sub-scores, and each sub-score lies within its declared range
(traffic_trend, seo_ranking, page_speed in [0,20]; content_freshness and
conversion_health in [0,15]; technical_health in [0,10]). -/
theorem health_score_total_and_ranges (now : Int) (page : WebPage)
    (ga4Data : Option GA4Snapshot) (searchData : Option SearchConsoleSnapshot)
    (speedData : Option PageSpeedScore) :
    let b := computeHealthScore now page ga4Data searchData speedData
    b.total = b.traffic_trend + b.seo_ranking + b.page_speed
        + b.content_freshness + b.conversion_health + b.technical_health
      ∧ (0 ≤ b.traffic_trend ∧ b.traffic_trend ≤ 20)
      ∧ (0 ≤ b.seo_ranking ∧ b.seo_ranking ≤ 20)
      ∧ (0 ≤ b.page_speed ∧ b.page_speed ≤ 20)
      ∧ (0 ≤ b.content_freshness ∧ b.content_freshness ≤ 15)
      ∧ (0 ≤ b.conversion_health ∧ b.conversion_health ≤ 15)
      ∧ (0 ≤ b.technical_health ∧ b.technical_health ≤ 10) := by
  refine ⟨rfl, scoreTrafficTrend_range ga4Data, scoreSeoRanking_range searchData,
    scorePageSpeed_range speedData, scoreContentFreshness_range now page,
    scoreConversionHealth_range page, scoreTechnicalHealth_range page⟩

/-- C4: missing-data defaults of the scorer.  A page with no analytics
snapshot, or one whose snapshot has a null `traffic_change_pct`, gets
traffic_trend 10; no search snapshot gets seo_ranking 0; no speed score
gets page_speed 10. -/
theorem health_score_missing_data_defaults (now : Int) (page : WebPage)
    (g : GA4Snapshot) (ga4Data : Option GA4Snapshot)
    (searchData : Option SearchConsoleSnapshot) (speedData : Option PageSpeedScore) :
    (computeHealthScore now page none searchData speedData).traffic_trend = 10
    ∧ (computeHealthScore now page (some { g with traffic_change_pct := none })
        searchData speedData).traffic_trend = 10
    ∧ (computeHealthScore now page ga4Data none speedData).seo_ranking = 0
    ∧ (computeHealthScore now page ga4Data searchData none).page_speed = 10 := by
  refine ⟨rfl, ?_, rfl, rfl⟩
  simp [computeHealthScore, scoreTrafficTrend]

-- ============================================================================
-- Guardrail validation (src/lib/website/validation.ts)
-- ============================================================================

/-- The two `config_json` rule shapes interpreted by `validateRecommendation`
(validation.ts lines 59-85).  `min_confidence` keeps the JS falsy guard:
a configured value of 0 is ignored by the source (`config.min_confidence &&`). -/
structure GuardrailConfig where
  blocked_action_types : Option (List String) := none
  min_confidence : Option ℚ := none
deriving DecidableEq

/-- `Guardrail` (types.ts), restricted to the fields the validator reads. -/
structure Guardrail where
  rule_name : String
  rule_type : String
  rule_category : String
  threshold_value : Option ℚ := none
  config_json : Option GuardrailConfig := none
  violation_action : String
  description : Option String := none
deriving DecidableEq

/-- The recommendation payload passed to `validateRecommendation`. -/
structure Recommendation where
  action_type : String
  action_summary : String
  severity : String
  confidence : ℚ
deriving DecidableEq

/-- A violation entry `{rule, message, action}` (validation.ts). -/
structure RuleViolation where
  rule : String
  message : String
  action : String
deriving DecidableEq

/-- A warning entry `{rule, message}` (validation.ts). -/
structure RuleWarning where
  rule : String
  message : String
deriving DecidableEq

/-- `ValidationResult` (validation.ts lines 4-8). -/
structure ValidationResult where
  passes : Bool
  violations : List RuleViolation
  warnings : List RuleWarning
deriving DecidableEq

/-- The per-guardrail body of the `for (const guardrail of guardrails)` loop
(validation.ts lines 53-86): the violations and warnings this guardrail
contributes, in push order. -/
def guardrailChecks (recommendation : Recommendation) (guardrail : Guardrail) :
    List RuleViolation × List RuleWarning :=
  if guardrail.rule_category = "anti_drift" ∧ guardrail.rule_type = "rule" then
    ([], [])
  else
    match guardrail.config_json with
    | none => ([], [])
    | some config =>
      let blockedViolations : List RuleViolation :=
        match config.blocked_action_types with
        | some blocked =>
          if blocked.contains recommendation.action_type then
            [{ rule := guardrail.rule_name
               message := "Action type \"" ++ recommendation.action_type
                 ++ "\" is blocked by guardrail: "
                 ++ (guardrail.description.getD guardrail.rule_name)
               action := guardrail.violation_action }]
          else []
        | none => []
      let confidenceEntries : List RuleViolation × List RuleWarning :=
        match config.min_confidence with
        | some minConfidence =>
          if minConfidence ≠ 0 ∧ recommendation.confidence < minConfidence then
            let message := "Confidence " ++ toString recommendation.confidence
              ++ " below guardrail threshold " ++ toString minConfidence
            if guardrail.violation_action = "block" then
              ([{ rule := guardrail.rule_name, message := message, action := "block" }], [])
            else
              ([], [{ rule := guardrail.rule_name, message := message }])
          else ([], [])
        | none => ([], [])
      (blockedViolations ++ confidenceEntries.1, confidenceEntries.2)

/-- `validateRecommendation` (validation.ts lines 25-95), with the active
guardrail list passed explicitly in place of the Supabase load. -/
def validateRecommendation (guardrails : List Guardrail)
    (recommendation : Recommendation) : ValidationResult :=
  let defaultViolations : List RuleViolation :=
    if recommendation.confidence < mkRat 3 10 then
      [{ rule := "min_confidence"
         message := "Confidence " ++ toString recommendation.confidence
           ++ " is below minimum threshold of 0.3"
         action := "block" }]
    else []
  let defaultWarnings : List RuleWarning :=
    if recommendation.severity = "low" ∧ recommendation.action_type = "fix_content" then
      [{ rule := "severity_action_mismatch"
         message := "Low severity finding with fix_content action - consider if this warrants a recommendation" }]
    else []
  let perGuardrail := guardrails.map (guardrailChecks recommendation)
  let violations := defaultViolations ++ (perGuardrail.map Prod.fst).flatten
  let warnings := defaultWarnings ++ (perGuardrail.map Prod.snd).flatten
  let hasBlockingViolation := violations.any (fun v => v.action = "block")
  { passes := ! hasBlockingViolation
    violations := violations
    warnings := warnings }

/-- C6: any recommendation with confidence below 0.3 fails validation with a
blocking violation, whatever guardrails are configured. -/
theorem low_confidence_always_blocks (guardrails : List Guardrail)
    (recommendation : Recommendation)
    (h : recommendation.confidence < mkRat 3 10) :
    (validateRecommendation guardrails recommendation).passes = false
    ∧ ∃ v ∈ (validateRecommendation guardrails recommendation).violations,
        v.action = "block" := by
  unfold validateRecommendation
  rw [if_pos h]
  refine ⟨?_, ?_⟩
  · simp [List.any_cons]
  · exact ⟨_, List.mem_append_left _ (List.mem_singleton_self _), rfl⟩

/-- Witness for C6 at a concrete recommendation (confidence 0.1) and a
concrete nonempty guardrail list. -/
theorem low_confidence_always_blocks_witness :
    ((mkRat 1 10 : ℚ) < mkRat 3 10)
    ∧ ((validateRecommendation
          [{ rule_name := "no_page_creation", rule_type := "rule",
             rule_category := "scope",
             config_json := some { blocked_action_types := some ["create_page"] },
             violation_action := "block" }]
          { action_type := "update_meta", action_summary := "tighten title",
            severity := "medium", confidence := mkRat 1 10 }).passes = false
        ∧ ∃ v ∈ (validateRecommendation
          [{ rule_name := "no_page_creation", rule_type := "rule",
             rule_category := "scope",
             config_json := some { blocked_action_types := some ["create_page"] },
             violation_action := "block" }]
          { action_type := "update_meta", action_summary := "tighten title",
            severity := "medium", confidence := mkRat 1 10 }).violations,
          v.action = "block") :=
  ⟨by decide, low_confidence_always_blocks _ _ (by decide)⟩

-- ============================================================================
-- Search Console comparison merge (src/lib/website/search-console-client.ts)
-- ============================================================================

/-- One row returned by `getPageSearchData`: per-page aggregated metrics. -/
structure PageSearchRow where
  pageUrl : String
  clicks : ℚ
  impressions : ℚ
  ctr : ℚ
  position : ℚ
deriving DecidableEq

/-- One row returned by `getPageSearchDataWithComparison`. -/
structure PageSearchComparisonRow where
  pageUrl : String
  clicks : ℚ
  impressions : ℚ
  ctr : ℚ
  position : ℚ
  previousClicks : ℚ
  previousImpressions : ℚ
  previousPosition : ℚ
  positionChange : ℚ
deriving DecidableEq

/-- `new Map(previous.map(p => [p.pageUrl, p])).get(url)`: for duplicate
keys, a JS `Map` keeps the last entry. -/
def prevMapGet (previous : List PageSearchRow) (url : String) :
    Option PageSearchRow :=
  (previous.filter (fun p => p.pageUrl = url)).getLast?

/-- The body of the `current.map(...)` callback in
`getPageSearchDataWithComparison` (search-console-client.ts lines 173-182).
When a previous-period row exists, `prev.clicks || 0` etc. equal the stored
values (a stored 0 is mapped to 0 by the JS `||` as well), so they are
written directly. -/
def comparisonRow (previous : List PageSearchRow) (page : PageSearchRow) :
    PageSearchComparisonRow :=
  match prevMapGet previous page.pageUrl with
  | some prev =>
    { pageUrl := page.pageUrl, clicks := page.clicks
      impressions := page.impressions, ctr := page.ctr
      position := page.position
      previousClicks := prev.clicks
      previousImpressions := prev.impressions
      previousPosition := prev.position
      positionChange := prev.position - page.position }
  | none =>
    { pageUrl := page.pageUrl, clicks := page.clicks
      impressions := page.impressions, ctr := page.ctr
      position := page.position
      previousClicks := 0
      previousImpressions := 0
      previousPosition := 0
      positionChange := 0 }

/-- `getPageSearchDataWithComparison` (search-console-client.ts lines
150-183), given the two period result sets in place of the network fetches. -/
def getPageSearchDataWithComparison (current previous : List PageSearchRow) :
    List PageSearchComparisonRow :=
  current.map (comparisonRow previous)

lemma comparisonRow_pageUrl (previous : List PageSearchRow)
    (page : PageSearchRow) :
    (comparisonRow previous page).pageUrl = page.pageUrl := by
  cases h : prevMapGet previous page.pageUrl <;> simp [comparisonRow, h]

/-- C8 counterexample: a current-period row with average position 5 and no
previous-period counterpart gets `previousPosition = 0` and
`positionChange = 0`, so `position_change = prev_position − current_position`
would require 0 = 0 − 5, which is false.  The claim as stated is therefore
false for rows without a previous-period row. -/
theorem position_change_invariant_fails_without_previous_row :
    getPageSearchDataWithComparison
        [{ pageUrl := "https://www.inecta.com/food-erp", clicks := 3,
           impressions := 50, ctr := mkRat 6 100, position := 5 }] []
      = [{ pageUrl := "https://www.inecta.com/food-erp", clicks := 3,
           impressions := 50, ctr := mkRat 6 100, position := 5,
           previousClicks := 0, previousImpressions := 0,
           previousPosition := 0, positionChange := 0 }]
    ∧ (0 : ℚ) ≠ 0 - 5 := by
  refine ⟨by decide, ?_⟩
  rw [zero_sub]
  decide

/-- C8 amended: for every output row whose page URL has a previous-period
row, `positionChange = previousPosition − position` and a positive value
means the average position improved (the current position is numerically
lower than the previous one); a row without a previous-period counterpart
gets `previousPosition = 0` and `positionChange = 0`. -/
theorem position_change_semantics (current previous : List PageSearchRow)
    (r : PageSearchComparisonRow)
    (hr : r ∈ getPageSearchDataWithComparison current previous) :
    (∀ prev, prevMapGet previous r.pageUrl = some prev →
      r.positionChange = prev.position - r.position
      ∧ r.previousPosition = prev.position
      ∧ (0 < r.positionChange ↔ r.position < prev.position))
    ∧ (prevMapGet previous r.pageUrl = none →
      r.positionChange = 0 ∧ r.previousPosition = 0) := by
  obtain ⟨page, hpage, hfr⟩ := List.mem_map.mp hr
  subst hfr
  rw [comparisonRow_pageUrl]
  cases hprev : prevMapGet previous page.pageUrl with
  | none =>
    constructor
    · intro prev hcontr
      exact Option.noConfusion hcontr
    · intro _
      simp [comparisonRow, hprev]
  | some prev =>
    constructor
    · intro prev' hprev'
      injection hprev' with heq
      subst heq
      refine ⟨by simp [comparisonRow, hprev], by simp [comparisonRow, hprev], ?_⟩
      simp only [comparisonRow, hprev]
      exact sub_pos
    · intro hcontr
      exact Option.noConfusion hcontr

/-- Witness for C8 amended, at a concrete pair of period result sets in
which the page has a previous-period row (position 8 → 5). -/
theorem position_change_semantics_witness :
    (getPageSearchDataWithComparison
        [{ pageUrl := "https://www.inecta.com/a", clicks := 7,
           impressions := 90, ctr := mkRat 7 90, position := 5 }]
        [{ pageUrl := "https://www.inecta.com/a", clicks := 4,
           impressions := 80, ctr := mkRat 1 20, position := 8 }]).head?
      = some ({ pageUrl := "https://www.inecta.com/a", clicks := 7,
                impressions := 90, ctr := mkRat 7 90, position := 5,
                previousClicks := 4, previousImpressions := 80,
                previousPosition := 8, positionChange := 8 - 5 })
    ∧ ∀ r ∈ getPageSearchDataWithComparison
        [{ pageUrl := "https://www.inecta.com/a", clicks := 7,
           impressions := 90, ctr := mkRat 7 90, position := 5 }]
        [{ pageUrl := "https://www.inecta.com/a", clicks := 4,
           impressions := 80, ctr := mkRat 1 20, position := 8 }],
      (∀ prev, prevMapGet
          [{ pageUrl := "https://www.inecta.com/a", clicks := 4,
             impressions := 80, ctr := mkRat 1 20, position := 8 }] r.pageUrl
          = some prev →
        r.positionChange = prev.position - r.position
        ∧ r.previousPosition = prev.position
        ∧ (0 < r.positionChange ↔ r.position < prev.position))
      ∧ (prevMapGet
          [{ pageUrl := "https://www.inecta.com/a", clicks := 4,
             impressions := 80, ctr := mkRat 1 20, position := 8 }] r.pageUrl
          = none →
        r.positionChange = 0 ∧ r.previousPosition = 0) :=
  ⟨rfl, fun r hr => position_change_semantics _ _ r hr⟩

-- ============================================================================
-- Link checker (link-checker module, src/unnamed/part_005 lines 466-561)
-- ============================================================================

/-- `MAX_REDIRECTS` (link-checker). -/
def MAX_REDIRECTS : Nat := 5

/-- The outcome of one `fetch(..., {redirect:'manual'})` call: either the
promise rejects (network error / timeout, caught by the `try`), or a
response with a status and an optional `location` header arrives. -/
inductive FetchOutcome where
  | failure
  | response (status : Int) (location : Option String)

/-- `LinkCheckResult` (types.ts). -/
structure LinkCheckResult where
  url : String
  status : Option Int
  isRedirect : Bool
  redirectChain : List String
  isBroken : Bool
  errorMessage : Option String

/-- Resolution of a `location` header against the current URL
(link-checker lines 527-529).  `new URL(location, currentUrl)` is abstracted
to concatenation for relative locations; the claims settled here depend
only on the length of the chain, never on the URL text. -/
def resolveLocation (location currentUrl : String) : String :=
  if location.startsWith "http" then location else currentUrl ++ location

/-- The state left behind by the bounded redirect-following loop of
`checkUrl`: the accumulated chain, the last observed status, how many
fetches were issued, and whether a fetch threw. -/
structure CrawlOutcome where
  redirectChain : List String
  finalStatus : Option Int
  fetchCount : Nat
  errored : Bool

/-- The `for (let i = 0; i < MAX_REDIRECTS; i++)` loop of `checkUrl`
(link-checker lines 511-537): one fetch per iteration, following
`location` on 3xx statuses.  `net i` is the outcome of the `i`-th fetch. -/
def checkUrlLoop (net : Nat → FetchOutcome) :
    Nat → String → List String → Option Int → Nat → CrawlOutcome
  | 0, _, chain, finalStatus, fetchIdx =>
    { redirectChain := chain, finalStatus := finalStatus,
      fetchCount := fetchIdx, errored := false }
  | remaining + 1, currentUrl, chain, _, fetchIdx =>
    match net fetchIdx with
    | .failure =>
      { redirectChain := chain, finalStatus := none,
        fetchCount := fetchIdx + 1, errored := true }
    | .response status location =>
      if 300 ≤ status ∧ status < 400 then
        match location with
        | none =>
          { redirectChain := chain, finalStatus := some status,
            fetchCount := fetchIdx + 1, errored := false }
        | some loc =>
          let nextUrl := resolveLocation loc currentUrl
          checkUrlLoop net remaining nextUrl (chain ++ [nextUrl])
            (some status) (fetchIdx + 1)
      else
        { redirectChain := chain, finalStatus := some status,
          fetchCount := fetchIdx + 1, errored := false }

/-- `checkUrl` (link-checker lines 505-561). -/
def checkUrl (net : Nat → FetchOutcome) (url : String) : LinkCheckResult :=
  let o := checkUrlLoop net MAX_REDIRECTS url [url] none 0
  if o.errored then
    { url := url, status := none, isRedirect := false, redirectChain := [],
      isBroken := true, errorMessage := some "fetch failed" }
  else
    let isRedirect := decide (1 < o.redirectChain.length)
    let isBroken := match o.finalStatus with
      | some s => decide (400 ≤ s ∨ s = 0)
      | none => false
    { url := url, status := o.finalStatus, isRedirect := isRedirect,
      redirectChain := if isRedirect then o.redirectChain else [],
      isBroken := isBroken,
      errorMessage :=
        if isBroken then o.finalStatus.map (fun s => "HTTP " ++ toString s)
        else none }

lemma checkUrlLoop_bounds (net : Nat → FetchOutcome) :
    ∀ (remaining : Nat) (currentUrl : String) (chain : List String)
      (finalStatus : Option Int) (fetchIdx : Nat),
      (checkUrlLoop net remaining currentUrl chain finalStatus fetchIdx).redirectChain.length
          ≤ chain.length + remaining
        ∧ (checkUrlLoop net remaining currentUrl chain finalStatus fetchIdx).fetchCount
          ≤ fetchIdx + remaining := by
  intro remaining
  induction remaining with
  | zero =>
    intro currentUrl chain finalStatus fetchIdx
    exact ⟨Nat.le_refl _, Nat.le_refl _⟩
  | succ n ih =>
    intro currentUrl chain finalStatus fetchIdx
    cases hnet : net fetchIdx with
    | failure => simp [checkUrlLoop, hnet]
    | response status location =>
      by_cases h : 300 ≤ status ∧ status < 400
      · cases location with
        | none => simp [checkUrlLoop, hnet, h]
        | some loc =>
          have hrec := ih (resolveLocation loc currentUrl)
            (chain ++ [resolveLocation loc currentUrl]) (some status) (fetchIdx + 1)
          simp only [checkUrlLoop, hnet, if_pos h]
          simp only [List.length_append, List.length_singleton] at hrec
          constructor
          · calc _ ≤ chain.length + 1 + n := hrec.1
              _ ≤ chain.length + (n + 1) := by omega
          · calc _ ≤ fetchIdx + 1 + n := hrec.2
              _ ≤ fetchIdx + (n + 1) := by omega
      · simp [checkUrlLoop, hnet, h]

lemma checkUrlLoop_head (net : Nat → FetchOutcome) (url : String) :
    ∀ (remaining : Nat) (currentUrl : String) (rest0 : List String)
      (finalStatus : Option Int) (fetchIdx : Nat),
      ∃ rest : List String,
        (checkUrlLoop net remaining currentUrl (url :: rest0) finalStatus fetchIdx).redirectChain
          = url :: rest := by
  intro remaining
  induction remaining with
  | zero =>
    intro currentUrl rest0 finalStatus fetchIdx
    exact ⟨rest0, rfl⟩
  | succ n ih =>
    intro currentUrl rest0 finalStatus fetchIdx
    cases hnet : net fetchIdx with
    | failure => exact ⟨rest0, by simp [checkUrlLoop, hnet]⟩
    | response status location =>
      by_cases h : 300 ≤ status ∧ status < 400
      · cases location with
        | none => exact ⟨rest0, by simp [checkUrlLoop, hnet, h]⟩
        | some loc =>
          obtain ⟨rest, hrest⟩ := ih (resolveLocation loc currentUrl)
            (rest0 ++ [resolveLocation loc currentUrl]) (some status) (fetchIdx + 1)
          refine ⟨rest, ?_⟩
          simp only [checkUrlLoop, hnet, if_pos h]
          simpa using hrest
      · exact ⟨rest0, by simp [checkUrlLoop, hnet, h]⟩

lemma checkUrl_redirectChain_cases (net : Nat → FetchOutcome) (url : String) :
    (checkUrl net url).redirectChain = []
    ∨ (checkUrl net url).redirectChain
        = (checkUrlLoop net MAX_REDIRECTS url [url] none 0).redirectChain := by
  unfold checkUrl
  by_cases herr : (checkUrlLoop net MAX_REDIRECTS url [url] none 0).errored
  · simp [herr]
  · by_cases hlen : 1 < (checkUrlLoop net MAX_REDIRECTS url [url] none 0).redirectChain.length
    · right; simp [herr, hlen]
    · left; simp [herr, hlen]

/-- C9: for every input URL and every sequence of network responses, the
redirect-following loop of `checkUrl` issues at most `MAX_REDIRECTS = 5`
fetches in total — so at most 5 redirect hops are ever traversed from the
original URL — and the returned `redirectChain` holds at most
`MAX_REDIRECTS = 5` redirect targets after the original URL (it is either
empty, or the original URL followed by at most 5 targets). -/
theorem checkUrl_redirect_bounds (net : Nat → FetchOutcome) (url : String) :
    (checkUrlLoop net MAX_REDIRECTS url [url] none 0).fetchCount ≤ MAX_REDIRECTS
    ∧ ((checkUrl net url).redirectChain = []
        ∨ ∃ targets : List String,
            (checkUrl net url).redirectChain = url :: targets
            ∧ targets.length ≤ MAX_REDIRECTS) := by
  have hb := checkUrlLoop_bounds net MAX_REDIRECTS url [url] none 0
  refine ⟨by simpa using hb.2, ?_⟩
  rcases checkUrl_redirectChain_cases net url with hnil | hfull
  · exact Or.inl hnil
  · obtain ⟨rest, hrest⟩ := checkUrlLoop_head net url MAX_REDIRECTS url [] none 0
    refine Or.inr ⟨rest, hfull.trans hrest, ?_⟩
    have h1 := hb.1
    rw [hrest] at h1
    have h5 : MAX_REDIRECTS = 5 := rfl
    rw [h5] at h1 ⊢
    simp only [List.length_cons, List.length_nil] at h1
    omega

-- ============================================================================
-- Conversion audit (conversion-audit module, src/unnamed/part_007)
-- ============================================================================

/-- A HubSpot form with its submission count (`getAllFormsWithCounts`). -/
structure HubSpotForm where
  id : String
  name : String
  submission_count : Int
deriving DecidableEq

/-- `determineTrackingHealth` (part_007 lines 93-102). -/
def determineTrackingHealth (ga4EventCount hubspotFormCount gapCount : Nat) :
    String :=
  if ga4EventCount = 0 then "not_configured"
  else if gapCount = 0 then "healthy"
  else if gapCount < hubspotFormCount then "degraded"
  else "broken"

/-- A prioritized recommendation `{priority, title, description}`
(part_007). -/
structure AuditRecommendation where
  priority : String
  title : String
  description : String
deriving DecidableEq

/-- `generateRecommendations` (part_007 lines 104-138). -/
def generateRecommendations (ga4EventCount hubspotFormCount gapCount : Nat)
    (forms : List HubSpotForm) : List AuditRecommendation :=
  let recs₀ : List AuditRecommendation :=
    if ga4EventCount = 0 then
      let totalSubmissions := forms.foldl (fun sum f => sum + f.submission_count) 0
      [{ priority := "critical"
         title := "GA4 has zero conversion events configured"
         description := "GA4 has no key events set up. HubSpot recorded "
           ++ toString totalSubmissions
           ++ " form submissions. You have no page-level conversion attribution. Set up form_submit as a GA4 key event and configure GTM to fire it on HubSpot form completions." }]
    else []
  let recs₁ : List AuditRecommendation :=
    if gapCount > 0 ∧ ga4EventCount > 0 then
      [{ priority := "high"
         title := toString gapCount ++ " HubSpot forms lack GA4 tracking"
         description := toString gapCount ++ " out of " ++ toString hubspotFormCount
           ++ " forms have no corresponding GA4 key event. Create GA4 events for each form or use a generic form_submit event with form ID parameters." }]
    else []
  let recs₂ : List AuditRecommendation :=
    if hubspotFormCount = 0 then
      [{ priority := "medium"
         title := "No HubSpot forms found"
         description := "No forms detected on the site. If the site has non-HubSpot forms, consider migrating them or setting up manual conversion tracking." }]
    else []
  recs₀ ++ recs₁ ++ recs₂

/-- C10: the tracking-health classification.  `not_configured` is returned
exactly when there are zero configured GA4 key events; with events present,
zero gaps is `healthy`, `0 < gaps < form count` is `degraded`, and
`gaps ≥ form count` (with at least one gap) is `broken`.  In particular,
zero events with 5 forms is `not_configured` whatever the gap count. -/
theorem tracking_health_classification (e f g : Nat) :
    (determineTrackingHealth e f g = "not_configured" ↔ e = 0)
    ∧ (e ≠ 0 → g = 0 → determineTrackingHealth e f g = "healthy")
    ∧ (e ≠ 0 → 0 < g → g < f → determineTrackingHealth e f g = "degraded")
    ∧ (e ≠ 0 → 0 < g → f ≤ g → determineTrackingHealth e f g = "broken")
    ∧ determineTrackingHealth 0 5 g = "not_configured" := by
  unfold determineTrackingHealth
  refine ⟨?_, ?_, ?_, ?_, rfl⟩
  · constructor
    · intro h
      by_contra he
      rw [if_neg he] at h
      split_ifs at h <;> exact absurd h (by decide)
    · intro h; rw [if_pos h]
  · intro he hg
    rw [if_neg he, if_pos hg]
  · intro he hg hlt
    rw [if_neg he, if_neg (by omega), if_pos hlt]
  · intro he hg hle
    rw [if_neg he, if_neg (by omega), if_neg (by omega)]

/-- Witness for C10 at concrete counts: (events, forms, gaps) =
(0,5,0) not_configured, (2,5,0) healthy, (2,5,3) degraded, (2,3,3) broken. -/
theorem tracking_health_classification_witness :
    determineTrackingHealth 0 5 0 = "not_configured"
    ∧ determineTrackingHealth 2 5 0 = "healthy"
    ∧ determineTrackingHealth 2 5 3 = "degraded"
    ∧ determineTrackingHealth 2 3 3 = "broken" :=
  ⟨((tracking_health_classification 0 5 0).1).mpr rfl,
   (tracking_health_classification 2 5 0).2.1 (by decide) rfl,
   (tracking_health_classification 2 5 3).2.2.1 (by decide) (by decide) (by decide),
   (tracking_health_classification 2 3 3).2.2.2.1 (by decide) (by decide) (by decide)⟩

-- ============================================================================
-- Agent loop (src/lib/website/agent-loop.ts)
-- ============================================================================

/-- `MAX_TOOL_CALLS` (agent-loop.ts line 7). -/
def MAX_TOOL_CALLS : Nat := 6

/-- `MAX_DURATION_MS` (agent-loop.ts line 8). -/
def MAX_DURATION_MS : Nat := 40000

/-- The fields of a `tool_use` block's input object that the loop reads
(`buildSubmitResult`, `buildSkipResult`); any field may be absent. -/
structure ToolUseInput where
  reason : Option String := none
  investigation_summary : Option String := none
  finding_type : Option String := none
  severity : Option String := none
  title : Option String := none
  description : Option String := none
  business_impact : Option String := none
  action_type : Option String := none
  action_summary : Option String := none
  confidence : Option ℚ := none
  risk_level : Option String := none
deriving DecidableEq

/-- A content block of a model response.  `tool_use` blocks carry the tool
name and input; the `tool_use_id` plumbing for tool results is not
modelled, since the conversation transcript is not observable in the
loop's result. -/
inductive ContentBlock where
  | text (s : String)
  | toolUse (name : String) (input : ToolUseInput)
deriving DecidableEq

/-- One iteration's worth of environment: the value of
`Date.now() − startTime` observed at the top of the `while` loop, and the
model response for that iteration.  Supplying responses as a script
subsumes any dependence of the model on the conversation so far. -/
structure LoopStep where
  elapsedMs : Nat
  content : List ContentBlock
deriving DecidableEq

/-- `AgentToolCall` (types.ts): the record appended per executed
non-terminal tool.  The tool output is kept as its JSON serialization. -/
structure AgentToolCall where
  tool_name : String
  input : ToolUseInput
  output : String
  duration_ms : Nat
deriving DecidableEq

/-- `AgentLoopResult` (types.ts). -/
structure AgentLoopResult where
  action : String
  finding_type : Option String := none
  severity : Option String := none
  title : Option String := none
  description : Option String := none
  business_impact : Option String := none
  action_type : Option String := none
  action_summary : Option String := none
  confidence : Option ℚ := none
  risk_level : Option String := none
  skip_reason : Option String := none
  investigation_summary : Option String := none
  iterations : Nat
  tools_used : List String
  tool_calls : List AgentToolCall
deriving DecidableEq

/-- `FlaggedPage` (types.ts). -/
structure FlaggedPage where
  page : WebPage
  ga4Data : Option GA4Snapshot := none
  searchData : Option SearchConsoleSnapshot := none
  speedData : Option PageSpeedScore := none
  flagReasons : List String := []
deriving DecidableEq

/-- `[...new Set(xs)]`: JS set spread keeps first occurrences in order. -/
def jsSetSpread (seen : List String) : List String → List String
  | [] => []
  | x :: xs =>
    if seen.contains x then jsSetSpread seen xs
    else x :: jsSetSpread (x :: seen) xs

/-- `[...new Set(toolCalls.map(c => c.tool_name))]` (agent-loop.ts). -/
def toolsUsed (toolCalls : List AgentToolCall) : List String :=
  jsSetSpread [] (toolCalls.map (fun c => c.tool_name))

/-- `forceTermination` (agent-loop.ts lines 224-238).  A null page title is
rendered as the string "null" by the JS template literal. -/
def forceTermination (flaggedPage : FlaggedPage) (toolCalls : List AgentToolCall)
    (iterations : Nat) (reason : String) : AgentLoopResult :=
  { action := "skip"
    skip_reason := some ("Forced termination: " ++ reason)
    investigation_summary := some ("Agent was forced to terminate after "
      ++ toString iterations ++ " iterations and " ++ toString toolCalls.length
      ++ " tool calls. Reason: " ++ reason ++ ". Page: \""
      ++ flaggedPage.page.title.getD "null" ++ "\" (" ++ flaggedPage.page.url ++ ")")
    iterations := iterations
    tools_used := toolsUsed toolCalls
    tool_calls := toolCalls }

/-- A terminal result captured during block processing.  In the source,
`buildSubmitResult`/`buildSkipResult` compute `tools_used` from the
`toolCalls` array at call time, but store the array itself by reference in
`tool_calls`; tool calls executed later in the same iteration therefore
still appear in the returned `tool_calls`.  The snapshot fields here are
what was computed at call time; `tool_calls` is attached when the loop
returns. -/
inductive PendingTerminal where
  | submitPending (input : ToolUseInput) (tools_used : List String) (iterations : Nat)
  | skipPending (input : ToolUseInput) (tools_used : List String) (iterations : Nat)
deriving DecidableEq

/-- Materialize `buildSubmitResult` / `buildSkipResult` (agent-loop.ts lines
186-222), attaching the final `toolCalls` array (JS aliasing, see
`PendingTerminal`). -/
def materializeTerminal (toolCalls : List AgentToolCall) :
    PendingTerminal → AgentLoopResult
  | .submitPending input tools_used iterations =>
    { action := "submit"
      finding_type := input.finding_type
      severity := input.severity
      title := input.title
      description := input.description
      business_impact := input.business_impact
      action_type := input.action_type
      action_summary := input.action_summary
      confidence := input.confidence
      risk_level := input.risk_level
      investigation_summary := input.investigation_summary
      iterations := iterations
      tools_used := tools_used
      tool_calls := toolCalls }
  | .skipPending input tools_used iterations =>
    { action := "skip"
      skip_reason := input.reason
      investigation_summary := input.investigation_summary
      iterations := iterations
      tools_used := tools_used
      tool_calls := toolCalls }

/-- `response.content.filter(b => b.type === 'tool_use')` (agent-loop.ts
lines 79-81). -/
def toolUseBlocks (content : List ContentBlock) : List (String × ToolUseInput) :=
  content.filterMap (fun b =>
    match b with
    | .toolUse name input => some (name, input)
    | .text _ => none)

/-- The `for (const toolBlock of toolUseBlocks)` body (agent-loop.ts lines
92-134): per block, first the budget check (which skips even terminal
blocks once the budget is reached), then terminal capture (a later terminal
block overwrites an earlier one), then non-terminal execution.  `exec`
supplies `executeToolCall`'s output serialization and duration. -/
def processBlocks (exec : String → ToolUseInput → String × Nat) (iterations : Nat) :
    List (String × ToolUseInput) → List AgentToolCall → Option PendingTerminal →
    List AgentToolCall × Option PendingTerminal
  | [], toolCalls, terminalResult => (toolCalls, terminalResult)
  | (name, input) :: rest, toolCalls, terminalResult =>
    if MAX_TOOL_CALLS ≤ toolCalls.length then
      processBlocks exec iterations rest toolCalls terminalResult
    else if name = "submit_finding" then
      processBlocks exec iterations rest toolCalls
        (some (.submitPending input (toolsUsed toolCalls) iterations))
    else if name = "skip_finding" then
      processBlocks exec iterations rest toolCalls
        (some (.skipPending input (toolsUsed toolCalls) iterations))
    else
      let out := exec name input
      processBlocks exec iterations rest
        (toolCalls ++ [{ tool_name := name, input := input,
                         output := out.1, duration_ms := out.2 }])
        terminalResult

/-- The `while (true)` loop of `runAgentLoop` (agent-loop.ts lines 55-144),
parameterized by the remaining scripted iterations.  Returns `none` when
the script is exhausted with the loop still running (the real loop would
call the model again). -/
def runAgentLoopFrom (exec : String → ToolUseInput → String × Nat)
    (flaggedPage : FlaggedPage) :
    List LoopStep → List AgentToolCall → Nat → Option AgentLoopResult
  | [], _, _ => none
  | step :: rest, toolCalls, iterations₀ =>
    let iterations := iterations₀ + 1
    if MAX_DURATION_MS < step.elapsedMs then
      some (forceTermination flaggedPage toolCalls iterations "Time budget exceeded")
    else if MAX_TOOL_CALLS ≤ toolCalls.length then
      some (forceTermination flaggedPage toolCalls iterations "Tool call budget exceeded")
    else
      let blocks := toolUseBlocks step.content
      if blocks.isEmpty then
        some (forceTermination flaggedPage toolCalls iterations
          "Agent ended without terminal tool call")
      else
        let processed := processBlocks exec iterations blocks toolCalls none
        match processed.2 with
        | some terminal => some (materializeTerminal processed.1 terminal)
        | none => runAgentLoopFrom exec flaggedPage rest processed.1 iterations

/-- `runAgentLoop` (agent-loop.ts lines 42-145), with the model's responses
and observed elapsed times supplied as `steps`. -/
def runAgentLoop (exec : String → ToolUseInput → String × Nat)
    (flaggedPage : FlaggedPage) (steps : List LoopStep) : Option AgentLoopResult :=
  runAgentLoopFrom exec flaggedPage steps [] 0

-- ============================================================================
-- Layer 2 analysis: persistence model and orchestration
-- (src/lib/website/analysis.ts)
-- ============================================================================

/-- JS `x || d` for an optional string column: `undefined`, `null` and the
empty string are all falsy. -/
def jsOrStr (x : Option String) (d : String) : String :=
  match x with
  | some s => if s = "" then d else s
  | none => d

/-- JS `x || d` for an optional number: `undefined`, `null` and 0 are falsy. -/
def jsOrRat (x : Option ℚ) (d : ℚ) : ℚ :=
  match x with
  | some q => if q = 0 then d else q
  | none => d

/-- A row of `website_agent_findings`, restricted to the columns written and
read by the embedded code. -/
structure FindingRow where
  id : String
  page_url : Option String := none
  page_id : Option String := none
  finding_type : String
  severity : String
  health_score : Option Int := none
  title : String
  description : String
  business_impact : Option String := none
  agent_loop_iterations : Option Nat := none
  agent_loop_tools_used : Option (List String) := none
  agent_investigation_summary : Option String := none
  status : String
  skip_reason : Option String := none
  expires_at : Option Int := none
deriving DecidableEq

/-- A row of `website_agent_change_log`.  The free-form `data_used` JSON
payload is kept as an opaque serialized string. -/
structure ChangeLogRow where
  action_type : String
  action_detail : Option String := none
  data_used : Option String := none
  reason : Option String := none
  outcome : Option String := none
  executed_by : Option String := none
  executed_at : Option Int := none
deriving DecidableEq

/-- A row of `website_agent_decision_queue`, restricted to the columns
written and read by the embedded code. -/
structure DecisionQueueRow where
  id : String := ""
  finding_id : Option String := none
  page_url : Option String := none
  action_type : String
  action_summary : String
  finding_type : Option String := none
  severity : Option String := none
  confidence : ℚ
  risk_level : String
  priority : Nat
  agent_loop_iterations : Option Nat := none
  agent_loop_tools_used : Option (List String) := none
  agent_investigation_summary : Option String := none
  status : String := "pending"
  reviewed_by : Option String := none
  reviewed_at : Option Int := none
  review_notes : Option String := none
  expires_at : Option Int := none
deriving DecidableEq

/-- A row of `website_agent_notifications`. -/
structure NotificationRow where
  notification_type : String
  severity : String
  title : String
  message : String
  related_entity_type : Option String := none
  related_entity_id : Option String := none
deriving DecidableEq

/-- A row of `shared_agent_signals`; the free-form payload is elided, since
nothing embedded here reads it back. -/
structure SignalRow where
  source_agent : String := "thyme"
  event_type : String
deriving DecidableEq

/-- The persistence store: the tables touched by the embedded endpoints,
each as an append/update list. -/
structure Db where
  findings : List FindingRow := []
  decisionQueue : List DecisionQueueRow := []
  changeLog : List ChangeLogRow := []
  notifications : List NotificationRow := []
  signals : List SignalRow := []
deriving DecidableEq

/-- `MAX_FINDINGS_PER_RUN` (analysis.ts line 6). -/
def MAX_FINDINGS_PER_RUN : Nat := 1

/-- The dedup pre-check (analysis.ts lines 22-28): an existing finding for
this page URL with status new / recommendation_drafted / approved. -/
def hasExistingFinding (db : Db) (url : String) : Bool :=
  db.findings.any (fun f =>
    (f.page_url == some url)
    && ((f.status == "new") || (f.status == "recommendation_drafted")
        || (f.status == "approved")))

/-- Database-generated row ids are modelled as fresh strings derived from
the current number of finding rows. -/
def freshFindingId (db : Db) : String :=
  "f" ++ toString db.findings.length

/-- The `status: 'skipped'` audit finding inserted on the skip path
(analysis.ts lines 59-72). -/
def skippedFindingRow (db : Db) (flaggedPage : FlaggedPage)
    (result : AgentLoopResult) : FindingRow :=
  { id := freshFindingId db
    page_url := some flaggedPage.page.url
    page_id := some flaggedPage.page.id
    finding_type := "traffic_decline"
    severity := "low"
    health_score := flaggedPage.page.health_score
    title := "Skipped: " ++ jsOrStr flaggedPage.page.title flaggedPage.page.url
    description := jsOrStr result.skip_reason "Agent decided not to submit a finding."
    agent_loop_iterations := some result.iterations
    agent_loop_tools_used := some result.tools_used
    agent_investigation_summary := result.investigation_summary
    status := "skipped"
    skip_reason := result.skip_reason }

/-- `createFinding` (analysis.ts lines 102-132); the insert is modelled as
always succeeding. -/
def createFinding (now : Int) (db : Db) (flaggedPage : FlaggedPage)
    (result : AgentLoopResult) : Db × FindingRow :=
  let finding : FindingRow :=
    { id := freshFindingId db
      page_url := some flaggedPage.page.url
      page_id := some flaggedPage.page.id
      finding_type := jsOrStr result.finding_type "traffic_decline"
      severity := jsOrStr result.severity "medium"
      health_score := flaggedPage.page.health_score
      title := jsOrStr result.title ("Issue found: " ++ flaggedPage.page.url)
      description := jsOrStr result.description (result.investigation_summary.getD "")
      business_impact := result.business_impact
      agent_loop_iterations := some result.iterations
      agent_loop_tools_used := some result.tools_used
      agent_investigation_summary := result.investigation_summary
      status := "recommendation_drafted"
      expires_at := some (now + 48 * 60 * 60 * 1000) }
  ({ db with findings := db.findings ++ [finding] }, finding)

/-- `createRecommendation` (analysis.ts lines 134-173): the decision-queue
item (priority from severity, confidence defaulting to 0.7, risk level
defaulting to low) and its notification. -/
def createRecommendation (now : Int) (db : Db) (finding : FindingRow)
    (result : AgentLoopResult) : Db :=
  let priority : Nat :=
    if result.severity = some "critical" then 10
    else if result.severity = some "high" then 8
    else if result.severity = some "medium" then 5
    else 3
  let queueItem : DecisionQueueRow :=
    { finding_id := some finding.id
      page_url := finding.page_url
      action_type := jsOrStr result.action_type "investigate_further"
      action_summary := jsOrStr result.action_summary (result.investigation_summary.getD "")
      finding_type := some finding.finding_type
      severity := some finding.severity
      confidence := jsOrRat result.confidence (mkRat 7 10)
      risk_level := jsOrStr result.risk_level "low"
      priority := priority
      agent_loop_iterations := some result.iterations
      agent_loop_tools_used := some result.tools_used
      agent_investigation_summary := result.investigation_summary
      expires_at := some (now + 48 * 60 * 60 * 1000) }
  let notification : NotificationRow :=
    { notification_type := "new_recommendation"
      severity := if finding.severity = "critical" then "critical" else "warning"
      title := "New finding: " ++ finding.title
      message := jsOrStr result.action_summary (result.investigation_summary.getD "")
      related_entity_type := some "finding"
      related_entity_id := some finding.id }
  { db with decisionQueue := db.decisionQueue ++ [queueItem]
            notifications := db.notifications ++ [notification] }

/-- `emitFindingSignals` (analysis.ts lines 175-220); signal payloads are
elided (see `SignalRow`). -/
def emitFindingSignals (db : Db) (flaggedPage : FlaggedPage)
    (result : AgentLoopResult) : Db :=
  let db := if result.finding_type = some "traffic_decline" then
      { db with signals := db.signals ++ [{ event_type := "page_traffic_drop" }] }
    else db
  let db := if result.finding_type = some "ranking_loss" then
      { db with signals := db.signals ++ [{ event_type := "page_ranking_loss" }] }
    else db
  let db := if result.finding_type = some "speed_degradation" then
      { db with signals := db.signals ++ [{ event_type := "page_speed_alert" }] }
    else db
  let healthScore := flaggedPage.page.health_score.getD 0
  if healthScore < 30 then
    { db with signals := db.signals ++ [{ event_type := "page_health_critical" }] }
  else db

/-- The per-page body of the `for (const flaggedPage of toProcess)` loop
(analysis.ts lines 19-97): dedup pre-check, agent loop, change-log entry,
then the skip or submit side effects.  The accumulator carries the store,
the created findings, and the skipped count. -/
def runLayer2Step (now : Int) (agent : FlaggedPage → AgentLoopResult)
    (acc : Db × List FindingRow × Nat) (flaggedPage : FlaggedPage) :
    Db × List FindingRow × Nat :=
  let db := acc.1
  let findings := acc.2.1
  let skipped := acc.2.2
  if hasExistingFinding db flaggedPage.page.url then
    (db, findings, skipped + 1)
  else
    let result := agent flaggedPage
    let db := { db with changeLog := db.changeLog ++ [{
      action_type := "agent_investigation"
      action_detail := some ("Investigated \"" ++ flaggedPage.page.title.getD "null"
        ++ "\" (" ++ flaggedPage.page.url ++ ")")
      reason := if result.action = "skip" then result.skip_reason
        else result.investigation_summary
      outcome := some (if result.action = "submit" then "pending" else "rejected") }] }
    if result.action = "skip" then
      let db' := { db with findings := db.findings ++ [skippedFindingRow db flaggedPage result] }
      (db', findings, skipped + 1)
    else
      let created := createFinding now db flaggedPage result
      let db := createRecommendation now created.1 created.2 result
      let db := emitFindingSignals db flaggedPage result
      (db, findings ++ [created.2], skipped)

/-- The shape of `runLayer2Analysis`'s return value. -/
structure Layer2Result where
  processed : Nat
  findings : List FindingRow
  skipped : Nat
deriving DecidableEq

/-- `runLayer2Analysis` (analysis.ts lines 12-100), with the agent loop
supplied as a function from flagged page to loop result, and the store
passed explicitly. -/
def runLayer2Analysis (now : Int) (agent : FlaggedPage → AgentLoopResult)
    (db : Db) (flaggedPages : List FlaggedPage) : Db × Layer2Result :=
  let toProcess := flaggedPages.take MAX_FINDINGS_PER_RUN
  let folded := toProcess.foldl (runLayer2Step now agent) (db, [], 0)
  (folded.1, { processed := toProcess.length, findings := folded.2.1,
               skipped := folded.2.2 })

-- Budget lemmas for the agent loop.

lemma processBlocks_stall (exec : String → ToolUseInput → String × Nat)
    (iterations : Nat) :
    ∀ (blocks : List (String × ToolUseInput)) (toolCalls : List AgentToolCall)
      (terminal : Option PendingTerminal),
      MAX_TOOL_CALLS ≤ toolCalls.length →
      processBlocks exec iterations blocks toolCalls terminal = (toolCalls, terminal) := by
  intro blocks
  induction blocks with
  | nil => intro toolCalls terminal _; rfl
  | cons b rest ih =>
    intro toolCalls terminal h
    obtain ⟨name, input⟩ := b
    simp only [processBlocks, if_pos h]
    exact ih toolCalls terminal h

lemma processBlocks_length_le (exec : String → ToolUseInput → String × Nat)
    (iterations : Nat) :
    ∀ (blocks : List (String × ToolUseInput)) (toolCalls : List AgentToolCall)
      (terminal : Option PendingTerminal),
      toolCalls.length ≤ MAX_TOOL_CALLS →
      (processBlocks exec iterations blocks toolCalls terminal).1.length ≤ MAX_TOOL_CALLS := by
  intro blocks
  induction blocks with
  | nil => intro toolCalls terminal h; exact h
  | cons b rest ih =>
    intro toolCalls terminal h
    obtain ⟨name, input⟩ := b
    by_cases hb : MAX_TOOL_CALLS ≤ toolCalls.length
    · simp only [processBlocks, if_pos hb]
      exact ih toolCalls terminal h
    · simp only [processBlocks, if_neg hb]
      by_cases hsub : name = "submit_finding"
      · rw [if_pos hsub]; exact ih toolCalls _ h
      · rw [if_neg hsub]
        by_cases hskip : name = "skip_finding"
        · rw [if_pos hskip]; exact ih toolCalls _ h
        · rw [if_neg hskip]
          refine ih _ terminal ?_
          simp only [List.length_append, List.length_singleton]
          omega

lemma runAgentLoopFrom_tool_calls_le (exec : String → ToolUseInput → String × Nat)
    (fp : FlaggedPage) :
    ∀ (steps : List LoopStep) (toolCalls : List AgentToolCall) (iters : Nat)
      (r : AgentLoopResult),
      toolCalls.length ≤ MAX_TOOL_CALLS →
      runAgentLoopFrom exec fp steps toolCalls iters = some r →
      r.tool_calls.length ≤ MAX_TOOL_CALLS := by
  intro steps
  induction steps with
  | nil => intro toolCalls iters r _ h; exact Option.noConfusion h
  | cons step rest ih =>
    intro toolCalls iters r hlen h
    simp only [runAgentLoopFrom] at h
    by_cases ht : MAX_DURATION_MS < step.elapsedMs
    · rw [if_pos ht] at h
      injection h with h
      subst h
      exact hlen
    · rw [if_neg ht] at h
      by_cases hb : MAX_TOOL_CALLS ≤ toolCalls.length
      · rw [if_pos hb] at h
        injection h with h
        subst h
        exact hlen
      · rw [if_neg hb] at h
        by_cases hempty : (toolUseBlocks step.content).isEmpty
        · rw [if_pos hempty] at h
          injection h with h
          subst h
          exact hlen
        · rw [if_neg hempty] at h
          have hproc := processBlocks_length_le exec (iters + 1)
            (toolUseBlocks step.content) toolCalls none hlen
          cases hterm : (processBlocks exec (iters + 1) (toolUseBlocks step.content)
              toolCalls none).2 with
          | some t =>
            rw [hterm] at h
            injection h with h
            subst h
            cases t <;> exact hproc
          | none =>
            rw [hterm] at h
            exact ih _ _ r hproc h

/-- C2 (amended): the loop never executes more than `MAX_TOOL_CALLS = 6`
non-terminal tool calls — every returned result carries at most 6 recorded
calls; once the budget is reached, block processing executes nothing
further (it returns its state unchanged); and if the loop reaches the top
of an iteration with 6 calls recorded, it returns a forced skip carrying
exactly those calls.  (The original claim's final clause — that the loop
always returns a *skip* once 6 calls are recorded — fails when a terminal
`submit_finding` block arrives in the same iteration as the sixth call;
see the counterexample.) -/
theorem agent_loop_six_call_budget :
    (∀ (exec : String → ToolUseInput → String × Nat) (fp : FlaggedPage)
       (steps : List LoopStep) (r : AgentLoopResult),
       runAgentLoop exec fp steps = some r →
       r.tool_calls.length ≤ MAX_TOOL_CALLS)
    ∧ (∀ (exec : String → ToolUseInput → String × Nat) (iterations : Nat)
         (blocks : List (String × ToolUseInput)) (toolCalls : List AgentToolCall)
         (terminal : Option PendingTerminal),
         MAX_TOOL_CALLS ≤ toolCalls.length →
         processBlocks exec iterations blocks toolCalls terminal = (toolCalls, terminal))
    ∧ (∀ (exec : String → ToolUseInput → String × Nat) (fp : FlaggedPage)
         (step : LoopStep) (rest : List LoopStep)
         (toolCalls : List AgentToolCall) (iters : Nat),
         MAX_TOOL_CALLS ≤ toolCalls.length →
         ∃ r, runAgentLoopFrom exec fp (step :: rest) toolCalls iters = some r
           ∧ r.action = "skip" ∧ r.tool_calls = toolCalls) := by
  refine ⟨?_, ?_, ?_⟩
  · intro exec fp steps r h
    exact runAgentLoopFrom_tool_calls_le exec fp steps [] 0 r (by decide) h
  · intro exec iterations blocks toolCalls terminal h
    exact processBlocks_stall exec iterations blocks toolCalls terminal h
  · intro exec fp step rest toolCalls iters h
    by_cases ht : MAX_DURATION_MS < step.elapsedMs
    · exact ⟨forceTermination fp toolCalls (iters + 1) "Time budget exceeded",
        by simp only [runAgentLoopFrom, if_pos ht], rfl, rfl⟩
    · exact ⟨forceTermination fp toolCalls (iters + 1) "Tool call budget exceeded",
        by simp only [runAgentLoopFrom, if_neg ht, if_pos h], rfl, rfl⟩

/-- C2 counterexample: with five executed tool calls, a model response
containing `submit_finding` followed by one more non-terminal tool records
a sixth call and still returns a *submit* result, refuting "once 6 tool
calls have been recorded ... the loop returns a skip result instead". -/
theorem six_calls_recorded_but_submit_returned :
    (runAgentLoop (fun _ _ => ("{}", 0))
        { page := { url := "https://www.inecta.com/food-erp" } }
        [{ elapsedMs := 0, content := [
            .toolUse "get_page_analytics" {},
            .toolUse "get_page_rankings" {},
            .toolUse "get_page_speed_detail" {},
            .toolUse "get_hubspot_page_detail" {},
            .toolUse "check_signal_bus" {},
            .toolUse "submit_finding"
              { finding_type := some "traffic_decline", severity := some "high",
                title := some "Traffic dropped",
                description := some "Organic traffic fell 40 percent",
                action_type := some "fix_content",
                action_summary := some "Refresh the page",
                investigation_summary := some "Checked analytics and rankings" },
            .toolUse "check_keyword_page_gap" {} ]}]).map
      (fun r => (r.action, r.tool_calls.length)) = some ("submit", 6) := by
  decide

/-- A concrete executed-tool-call record used by closed instantiations. -/
def toolCallFixture : AgentToolCall :=
  { tool_name := "t", input := {}, output := "{}", duration_ms := 0 }

/-- Witness for C2 (amended) at concrete inputs: a run that terminates by
`skip_finding` after one executed call keeps `tool_calls` within budget;
block processing with six already-recorded calls is inert; and a loop
iteration entered with six recorded calls force-skips with those calls. -/
theorem agent_loop_six_call_budget_witness :
    ((runAgentLoop (fun _ _ => ("{}", 0))
        { page := { url := "https://www.inecta.com/a" } }
        [{ elapsedMs := 0, content := [
            .toolUse "get_page_analytics" {},
            .toolUse "skip_finding" { reason := some "healthy page" } ]}]
      = some (materializeTerminal
          [{ tool_name := "get_page_analytics", input := {}, output := "{}",
             duration_ms := 0 }]
          (.skipPending { reason := some "healthy page" }
            ["get_page_analytics"] 1))))
    ∧ (materializeTerminal
          [{ tool_name := "get_page_analytics", input := {}, output := "{}",
             duration_ms := 0 }]
          (.skipPending { reason := some "healthy page" }
            ["get_page_analytics"] 1)).tool_calls.length ≤ MAX_TOOL_CALLS
    ∧ MAX_TOOL_CALLS ≤ (List.replicate 6 toolCallFixture).length
    ∧ processBlocks (fun _ _ => ("{}", 0)) 2 [("get_page_analytics", {})]
        (List.replicate 6 toolCallFixture) none
      = (List.replicate 6 toolCallFixture, none)
    ∧ ∃ r, runAgentLoopFrom (fun _ _ => ("{}", 0))
             { page := { url := "https://www.inecta.com/a" } }
             [{ elapsedMs := 0, content := [] }]
             (List.replicate 6 toolCallFixture) 1
           = some r ∧ r.action = "skip"
           ∧ r.tool_calls = List.replicate 6 toolCallFixture := by
  refine ⟨by decide, ?_, by decide, ?_, ?_⟩
  · exact agent_loop_six_call_budget.1 (fun _ _ => ("{}", 0))
      { page := { url := "https://www.inecta.com/a" } }
      [{ elapsedMs := 0, content := [
          .toolUse "get_page_analytics" {},
          .toolUse "skip_finding" { reason := some "healthy page" } ]}]
      (materializeTerminal
        [{ tool_name := "get_page_analytics", input := {}, output := "{}",
           duration_ms := 0 }]
        (.skipPending { reason := some "healthy page" } ["get_page_analytics"] 1))
      (by decide)
  · exact agent_loop_six_call_budget.2.1 (fun _ _ => ("{}", 0)) 2
      [("get_page_analytics", {})] (List.replicate 6 toolCallFixture) none (by decide)
  · exact agent_loop_six_call_budget.2.2 (fun _ _ => ("{}", 0))
      { page := { url := "https://www.inecta.com/a" } }
      { elapsedMs := 0, content := [] } [] (List.replicate 6 toolCallFixture)
      1 (by decide)

/-- C3: whenever the loop observes an exhausted budget at the top of an
iteration (elapsed time over `MAX_DURATION_MS`, or `MAX_TOOL_CALLS` calls
recorded), or the model response carries no tool-use blocks, `runAgentLoop`
returns a value (the model is total — no exception path) whose action is
"skip" and whose skip_reason begins with "Forced termination"; and for any
page that passes the dedup pre-check, a skip-valued agent result makes the
scan insert a finding with status "skipped" for that page. -/
theorem forced_termination_synthesizes_skip :
    (∀ (exec : String → ToolUseInput → String × Nat) (fp : FlaggedPage)
       (step : LoopStep) (rest : List LoopStep)
       (toolCalls : List AgentToolCall) (iters : Nat),
       MAX_DURATION_MS < step.elapsedMs ∨ MAX_TOOL_CALLS ≤ toolCalls.length
         ∨ toolUseBlocks step.content = [] →
       ∃ r, runAgentLoopFrom exec fp (step :: rest) toolCalls iters = some r
         ∧ r.action = "skip"
         ∧ ∃ suffix, r.skip_reason = some ("Forced termination: " ++ suffix))
    ∧ (∀ (now : Int) (agent : FlaggedPage → AgentLoopResult) (db : Db)
         (fp : FlaggedPage) (rest : List FlaggedPage),
         hasExistingFinding db fp.page.url = false →
         (agent fp).action = "skip" →
         ∃ row ∈ (runLayer2Analysis now agent db (fp :: rest)).1.findings,
           row.status = "skipped" ∧ row.page_url = some fp.page.url
             ∧ row.skip_reason = (agent fp).skip_reason) := by
  constructor
  · intro exec fp step rest toolCalls iters h
    by_cases ht : MAX_DURATION_MS < step.elapsedMs
    · exact ⟨forceTermination fp toolCalls (iters + 1) "Time budget exceeded",
        by simp only [runAgentLoopFrom, if_pos ht], rfl,
        "Time budget exceeded", rfl⟩
    · by_cases hb : MAX_TOOL_CALLS ≤ toolCalls.length
      · exact ⟨forceTermination fp toolCalls (iters + 1) "Tool call budget exceeded",
          by simp only [runAgentLoopFrom, if_neg ht, if_pos hb], rfl,
          "Tool call budget exceeded", rfl⟩
      · have hempty : toolUseBlocks step.content = [] := by
          rcases h with h | h | h
          · exact absurd h ht
          · exact absurd h hb
          · exact h
        refine ⟨forceTermination fp toolCalls (iters + 1)
          "Agent ended without terminal tool call", ?_, rfl,
          "Agent ended without terminal tool call", rfl⟩
        simp only [runAgentLoopFrom, if_neg ht, if_neg hb, hempty]
        rfl
  · intro now agent db fp rest hded hskip
    unfold runLayer2Analysis
    simp only [MAX_FINDINGS_PER_RUN, List.take_succ_cons, List.take_zero,
      List.foldl_cons, List.foldl_nil]
    unfold runLayer2Step
    simp only [hded, Bool.false_eq_true, if_false, hskip, if_true, if_pos]
    refine ⟨_, List.mem_append_right _ (List.mem_singleton_self _), rfl, rfl, rfl⟩

/-- Witness for C3 at concrete inputs: an iteration entered past the time
budget force-skips; and a skip result on a fresh page inserts a
status-"skipped" finding row. -/
theorem forced_termination_synthesizes_skip_witness :
    (∃ r, runAgentLoopFrom (fun _ _ => ("{}", 0))
            { page := { url := "https://www.inecta.com/a" } }
            [{ elapsedMs := 40001, content := [] }] [] 0
          = some r ∧ r.action = "skip"
          ∧ ∃ suffix, r.skip_reason = some ("Forced termination: " ++ suffix))
    ∧ ∃ row ∈ (runLayer2Analysis 0
          (fun _ => { action := "skip",
                      skip_reason := some "Forced termination: Time budget exceeded",
                      iterations := 1, tools_used := [], tool_calls := [] })
          {} [{ page := { url := "https://www.inecta.com/a" } }]).1.findings,
        row.status = "skipped"
        ∧ row.page_url = some "https://www.inecta.com/a"
        ∧ row.skip_reason = some "Forced termination: Time budget exceeded" :=
  ⟨forced_termination_synthesizes_skip.1 (fun _ _ => ("{}", 0))
      { page := { url := "https://www.inecta.com/a" } }
      { elapsedMs := 40001, content := [] } [] [] 0 (Or.inl (by decide)),
   forced_termination_synthesizes_skip.2 0
      (fun _ => { action := "skip",
                  skip_reason := some "Forced termination: Time budget exceeded",
                  iterations := 1, tools_used := [], tool_calls := [] })
      {} { page := { url := "https://www.inecta.com/a" } } [] (by decide) rfl⟩

/-- C5 counterexample: with an existing `recommendation_drafted` finding
for the page, the dedup pre-check takes the `skipped++; continue` path,
which writes **no** change-log entry — the run ends with an empty change
log, refuting "records the dedup as a skip event in the change log". -/
theorem dedup_writes_no_change_log_entry :
    (runLayer2Analysis 0
        (fun _ => { action := "skip", iterations := 1, tools_used := [],
                    tool_calls := [] })
        { findings := [{ id := "f0",
                         page_url := some "https://www.inecta.com/food-erp",
                         finding_type := "traffic_decline", severity := "medium",
                         title := "Traffic decline", description := "d",
                         status := "recommendation_drafted" }] }
        [{ page := { url := "https://www.inecta.com/food-erp" } }]).1.changeLog = []
    ∧ (runLayer2Analysis 0
        (fun _ => { action := "skip", iterations := 1, tools_used := [],
                    tool_calls := [] })
        { findings := [{ id := "f0",
                         page_url := some "https://www.inecta.com/food-erp",
                         finding_type := "traffic_decline", severity := "medium",
                         title := "Traffic decline", description := "d",
                         status := "recommendation_drafted" }] }
        [{ page := { url := "https://www.inecta.com/food-erp" } }]).2.skipped = 1 := by
  exact ⟨by decide, by decide⟩

/-- C5 (amended): when a flagged page already has a finding in status
new / recommendation_drafted / approved, the run's outcome is independent
of the agent (the loop is not invoked), the store is left entirely
unchanged — in particular no change-log entry is written for the dedup —
no finding is created, and the skipped count is incremented. -/
theorem dedup_skips_agent_loop (now : Int)
    (agent agent' : FlaggedPage → AgentLoopResult) (db : Db)
    (fp : FlaggedPage) (rest : List FlaggedPage)
    (h : hasExistingFinding db fp.page.url = true) :
    runLayer2Analysis now agent db (fp :: rest)
        = runLayer2Analysis now agent' db (fp :: rest)
    ∧ (runLayer2Analysis now agent db (fp :: rest)).1 = db
    ∧ (runLayer2Analysis now agent db (fp :: rest)).1.changeLog = db.changeLog
    ∧ (runLayer2Analysis now agent db (fp :: rest)).2.findings = []
    ∧ (runLayer2Analysis now agent db (fp :: rest)).2.skipped = 1 := by
  unfold runLayer2Analysis
  simp only [MAX_FINDINGS_PER_RUN, List.take_succ_cons, List.take_zero,
    List.foldl_cons, List.foldl_nil]
  unfold runLayer2Step
  simp only [h, if_true, if_pos]
  exact ⟨trivial, trivial, trivial, trivial, trivial⟩

/-- Witness for C5 (amended) at a concrete store holding an approved
finding for the flagged page. -/
theorem dedup_skips_agent_loop_witness :
    hasExistingFinding
        { findings := [{ id := "f0",
                         page_url := some "https://www.inecta.com/a",
                         finding_type := "traffic_decline", severity := "low",
                         title := "t", description := "d",
                         status := "approved" }] }
        "https://www.inecta.com/a" = true
    ∧ ((runLayer2Analysis 7
          (fun _ => { action := "submit", iterations := 2, tools_used := [],
                      tool_calls := [] })
          { findings := [{ id := "f0",
                           page_url := some "https://www.inecta.com/a",
                           finding_type := "traffic_decline", severity := "low",
                           title := "t", description := "d",
                           status := "approved" }] }
          [{ page := { url := "https://www.inecta.com/a" } }]).2.skipped = 1) := by
  refine ⟨by decide, ?_⟩
  exact (dedup_skips_agent_loop 7
    (fun _ => { action := "submit", iterations := 2, tools_used := [],
                tool_calls := [] })
    (fun _ => { action := "skip", iterations := 1, tools_used := [],
                tool_calls := [] })
    { findings := [{ id := "f0",
                     page_url := some "https://www.inecta.com/a",
                     finding_type := "traffic_decline", severity := "low",
                     title := "t", description := "d",
                     status := "approved" }] }
    { page := { url := "https://www.inecta.com/a" } } [] (by decide)).2.2.2.2

-- ============================================================================
-- Review decision endpoint (src/app/api/website-agent/decide/route.ts)
-- ============================================================================

/-- JS `x || null` for an optional string column: `undefined` and the empty
string both store as null. -/
def jsOrNull (x : Option String) : Option String :=
  match x with
  | some s => if s = "" then none else some s
  | none => none

/-- The JSON body accepted by the review endpoint. -/
structure DecideRequest where
  id : Option String := none
  action : Option String := none
  notes : Option String := none
deriving DecidableEq

/-- Which of the three follow-up Supabase calls report an error.  The
source destructures `error` only for the queue update; the finding mirror,
log insert and notification insert are awaited without checking their
returned `error`, so a failure there is silently ignored. -/
structure DecideEnv where
  findingUpdateFails : Bool := false
  logInsertFails : Bool := false
  notificationInsertFails : Bool := false
deriving DecidableEq

/-- The JSON responses of the endpoint: a success body
`{success, id, action, status}` or an error body with its HTTP status. -/
inductive ApiResponse where
  | ok (id : String) (action : String) (status : String)
  | err (status : Nat) (message : String)
deriving DecidableEq

/-- `POST /api/website-agent/decide` (decide/route.ts lines 7-95).  The
queue update targets rows matching `id` with status "pending" and returns
404 when none matches; the three follow-up writes are skipped when the
environment reports an error for them (mirroring the source's unchecked
`error` results). -/
def decidePOST (now : Int) (env : DecideEnv) (db : Db) (req : DecideRequest) :
    Db × ApiResponse :=
  let idVal := match req.id with
    | some s => if s = "" then none else some s
    | none => none
  let actionVal := match req.action with
    | some s => if s = "" then none else some s
    | none => none
  match idVal, actionVal with
  | some id, some action =>
    if action ≠ "approve" ∧ action ≠ "reject" then
      (db, .err 400 "Action must be \"approve\" or \"reject\"")
    else
      match db.decisionQueue.find? (fun q => q.id == id && q.status == "pending") with
      | none => (db, .err 404 "Decision queue item not found or already reviewed")
      | some item₀ =>
        let item := { item₀ with
          status := if action = "approve" then "approved" else "rejected"
          reviewed_by := some "human"
          reviewed_at := some now
          review_notes := jsOrNull req.notes }
        let db := { db with decisionQueue := db.decisionQueue.map (fun q =>
          if q.id == id && q.status == "pending" then item else q) }
        let db := match item.finding_id with
          | some fid =>
            if env.findingUpdateFails then db
            else { db with findings := db.findings.map (fun f =>
              if f.id == fid then
                { f with status := if action = "approve" then "approved" else "expired" }
              else f) }
          | none => db
        let db := if env.logInsertFails then db
          else { db with changeLog := db.changeLog ++ [{
            action_type := if action = "approve" then "recommendation_approved"
              else "recommendation_rejected"
            action_detail := some ((if action = "approve" then "Approved: "
              else "Rejected: ") ++ item.action_summary)
            data_used := none
            reason := jsOrNull req.notes
            outcome := some (if action = "approve" then "approved" else "rejected")
            executed_by := some "human"
            executed_at := some now }] }
        let db := if env.notificationInsertFails then db
          else { db with notifications := db.notifications ++ [{
            notification_type := "recommendation_" ++ action ++ "ed"
            severity := if action = "approve" then "success" else "info"
            title := "Recommendation " ++ action ++ "ed"
            message := item.action_summary
            related_entity_type := some "decision_queue"
            related_entity_id := some id }] }
        (db, .ok id action (if action = "approve" then "approved" else "rejected"))
  | _, _ => (db, .err 400 "Missing id or action")

/-- C7 counterexample: with a pending queue item whose finding mirror
fails (the source never checks that update's `error`), the endpoint still
responds with success while the finding keeps its old status — the four
effects are not all-or-typed-error. -/
theorem review_is_not_transactional :
    (decidePOST 0 { findingUpdateFails := true }
        { decisionQueue := [{ id := "q1", finding_id := some "f1",
                              page_url := some "https://www.inecta.com/a",
                              action_type := "fix_content",
                              action_summary := "Refresh the page",
                              confidence := 1, risk_level := "low", priority := 5,
                              status := "pending" }]
          findings := [{ id := "f1",
                         page_url := some "https://www.inecta.com/a",
                         finding_type := "traffic_decline", severity := "medium",
                         title := "Traffic decline", description := "d",
                         status := "recommendation_drafted" }] }
        { id := some "q1", action := some "approve" }).2
      = .ok "q1" "approve" "approved"
    ∧ (decidePOST 0 { findingUpdateFails := true }
        { decisionQueue := [{ id := "q1", finding_id := some "f1",
                              page_url := some "https://www.inecta.com/a",
                              action_type := "fix_content",
                              action_summary := "Refresh the page",
                              confidence := 1, risk_level := "low", priority := 5,
                              status := "pending" }]
          findings := [{ id := "f1",
                         page_url := some "https://www.inecta.com/a",
                         finding_type := "traffic_decline", severity := "medium",
                         title := "Traffic decline", description := "d",
                         status := "recommendation_drafted" }] }
        { id := some "q1", action := some "approve" }).1.findings
      = [{ id := "f1", page_url := some "https://www.inecta.com/a",
           finding_type := "traffic_decline", severity := "medium",
           title := "Traffic decline", description := "d",
           status := "recommendation_drafted" }] := by
  exact ⟨by decide, by decide⟩

/-- C7 (amended): the review succeeds only on a currently-pending item —
otherwise it returns the 404-style error and the store is unchanged; with
the follow-up writes succeeding, an approve mirrors status "approved" onto
the referenced finding and a reject mirrors "expired", and the response is
the success body.  The effects are not transactional: when the finding
mirror's result is an error (which the source never checks), the queue
update persists, the findings are untouched, and the response still
reports success. -/
theorem review_pending_semantics :
    (∀ (now : Int) (env : DecideEnv) (db : Db) (id action : String)
       (notes : Option String),
       id ≠ "" → (action = "approve" ∨ action = "reject") →
       (∀ q ∈ db.decisionQueue, ¬(q.id = id ∧ q.status = "pending")) →
       decidePOST now env db { id := some id, action := some action, notes := notes }
         = (db, .err 404 "Decision queue item not found or already reviewed"))
    ∧ (∀ (now : Int) (db : Db) (id action : String) (notes : Option String)
         (item : DecisionQueueRow) (fid : String) (f : FindingRow),
         id ≠ "" → (action = "approve" ∨ action = "reject") →
         db.decisionQueue.find? (fun q => q.id == id && q.status == "pending")
           = some item →
         item.finding_id = some fid →
         f ∈ db.findings → f.id = fid →
         ({ f with status := if action = "approve" then "approved" else "expired" }
             ∈ (decidePOST now {} db
                 { id := some id, action := some action, notes := notes }).1.findings)
           ∧ (decidePOST now {} db
                 { id := some id, action := some action, notes := notes }).2
             = .ok id action (if action = "approve" then "approved" else "rejected"))
    ∧ (∀ (now : Int) (db : Db) (id action : String) (notes : Option String)
         (item : DecisionQueueRow),
         id ≠ "" → (action = "approve" ∨ action = "reject") →
         db.decisionQueue.find? (fun q => q.id == id && q.status == "pending")
           = some item →
         ((decidePOST now { findingUpdateFails := true } db
             { id := some id, action := some action, notes := notes }).2
           = .ok id action (if action = "approve" then "approved" else "rejected"))
           ∧ (decidePOST now { findingUpdateFails := true } db
               { id := some id, action := some action, notes := notes }).1.findings
             = db.findings) := by
  have hcond : ∀ action : String, action = "approve" ∨ action = "reject" →
      ¬(action ≠ "approve" ∧ action ≠ "reject") := by
    intro action h
    rcases h with h | h <;> simp [h]
  have hactne : ∀ action : String, action = "approve" ∨ action = "reject" →
      action ≠ "" := by
    intro action h
    rcases h with h | h <;> simp [h]
  refine ⟨?_, ?_, ?_⟩
  · intro now env db id action notes hid haction hnone
    have hfind : db.decisionQueue.find? (fun q => q.id == id && q.status == "pending")
        = none := by
      rw [List.find?_eq_none]
      intro q hq
      have := hnone q hq
      simp only [Bool.and_eq_true, beq_iff_eq]
      intro hcontra
      exact this ⟨hcontra.1, hcontra.2⟩
    simp only [decidePOST, if_neg hid, if_neg (hactne action haction),
      if_neg (hcond action haction), hfind]
  · intro now db id action notes item fid f hid haction hfind hfid hf hfidEq
    simp only [decidePOST, if_neg hid, if_neg (hactne action haction),
      if_neg (hcond action haction), hfind, hfid]
    constructor
    · refine List.mem_map.mpr ⟨f, hf, ?_⟩
      rw [if_pos (beq_iff_eq.mpr hfidEq)]
    · trivial
  · intro now db id action notes item hid haction hfind
    simp only [decidePOST, if_neg hid, if_neg (hactne action haction),
      if_neg (hcond action haction), hfind]
    cases hfid : item.finding_id <;> simp [hfid]

/-- Witness for C7 (amended) at concrete stores: a reviewed (approved)
item yields 404 with the store unchanged; a pending item is approved and
its finding mirrored; and the failure-injected run keeps the finding
untouched while reporting success. -/
theorem review_pending_semantics_witness :
    (decidePOST 5 {}
        { decisionQueue := [{ id := "q1", finding_id := some "f1",
                              action_type := "fix_content", action_summary := "a",
                              confidence := 1, risk_level := "low", priority := 5,
                              status := "approved" }] }
        { id := some "q1", action := some "reject" }
      = ({ decisionQueue := [{ id := "q1", finding_id := some "f1",
                               action_type := "fix_content", action_summary := "a",
                               confidence := 1, risk_level := "low", priority := 5,
                               status := "approved" }] },
         .err 404 "Decision queue item not found or already reviewed"))
    ∧ (({ id := "f1", page_url := none, finding_type := "traffic_decline",
          severity := "medium", title := "t", description := "d",
          status := "approved" } : FindingRow)
        ∈ (decidePOST 5 {}
            { decisionQueue := [{ id := "q1", finding_id := some "f1",
                                  action_type := "fix_content", action_summary := "a",
                                  confidence := 1, risk_level := "low", priority := 5,
                                  status := "pending" }]
              findings := [{ id := "f1", finding_type := "traffic_decline",
                             severity := "medium", title := "t", description := "d",
                             status := "recommendation_drafted" }] }
            { id := some "q1", action := some "approve" }).1.findings)
    ∧ ((decidePOST 5 { findingUpdateFails := true }
          { decisionQueue := [{ id := "q1", finding_id := some "f1",
                                action_type := "fix_content", action_summary := "a",
                                confidence := 1, risk_level := "low", priority := 5,
                                status := "pending" }]
            findings := [{ id := "f1", finding_type := "traffic_decline",
                           severity := "medium", title := "t", description := "d",
                           status := "recommendation_drafted" }] }
          { id := some "q1", action := some "approve" }).2
        = .ok "q1" "approve" "approved") := by
  refine ⟨?_, ?_, ?_⟩
  · exact review_pending_semantics.1 5 {}
      { decisionQueue := [{ id := "q1", finding_id := some "f1",
                            action_type := "fix_content", action_summary := "a",
                            confidence := 1, risk_level := "low", priority := 5,
                            status := "approved" }] }
      "q1" "reject" none (by decide) (Or.inr rfl)
      (by intro q hq; simp at hq; subst hq; simp)
  · have h := (review_pending_semantics.2.1 5
      { decisionQueue := [{ id := "q1", finding_id := some "f1",
                            action_type := "fix_content", action_summary := "a",
                            confidence := 1, risk_level := "low", priority := 5,
                            status := "pending" }]
        findings := [{ id := "f1", finding_type := "traffic_decline",
                       severity := "medium", title := "t", description := "d",
                       status := "recommendation_drafted" }] }
      "q1" "approve" none
      { id := "q1", finding_id := some "f1",
        action_type := "fix_content", action_summary := "a",
        confidence := 1, risk_level := "low", priority := 5,
        status := "pending" }
      "f1"
      { id := "f1", finding_type := "traffic_decline",
        severity := "medium", title := "t", description := "d",
        status := "recommendation_drafted" }
      (by decide) (Or.inl rfl) (by decide) rfl (by simp) rfl).1
    simpa using h
  · exact (review_pending_semantics.2.2 5
      { decisionQueue := [{ id := "q1", finding_id := some "f1",
                            action_type := "fix_content", action_summary := "a",
                            confidence := 1, risk_level := "low", priority := 5,
                            status := "pending" }]
        findings := [{ id := "f1", finding_type := "traffic_decline",
                       severity := "medium", title := "t", description := "d",
                       status := "recommendation_drafted" }] }
      "q1" "approve" none
      { id := "q1", finding_id := some "f1",
        action_type := "fix_content", action_summary := "a",
        confidence := 1, risk_level := "low", priority := 5,
        status := "pending" }
      (by decide) (Or.inl rfl) (by decide)).1
